import Mathlib

set_option maxHeartbeats 1000000
set_option maxRecDepth 10000

/-!
Verification development for the photo-timestamper watermarking core
(`source/core.py`).  Each Python function relevant to the frozen claims is
shallowly embedded as an executable Lean definition; observable side effects
(callbacks, file writes, disk reads) are modelled as explicit event traces,
and Python exceptions as `Except`/`Option` results.
-/

/- ==================== WatermarkRenderer._parse_color (core.py 565-582) ==================== -/

/-- Value of one hexadecimal digit, as accepted by Python `int(s, 16)` on a
single digit character; `none` models the `ValueError` raised on any other
character. -/
def hexVal (c : Char) : Option Nat :=
  if '0' ≤ c ∧ c ≤ '9' then some (c.toNat - 48)
  else if 'a' ≤ c ∧ c ≤ 'f' then some (c.toNat - 87)
  else if 'A' ≤ c ∧ c ≤ 'F' then some (c.toNat - 55)
  else none

/-- `int(color_str[i:i+2], 16)` on a two hex-digit substring. -/
def hexPair (c1 c2 : Char) : Option Nat :=
  match hexVal c1, hexVal c2 with
  | some a, some b => some (16 * a + b)
  | _, _ => none

/-- Python `int(...)` applied to an exact rational value: truncation toward
zero (this is what `a = int(255 * opacity)` computes on line 581; the float
multiplication is modelled as exact rational arithmetic). -/
def pyTrunc (q : ℚ) : ℤ :=
  if q < 0 then -(Int.floor (-q)) else Int.floor q

/-- `color_str[1:]` after the `startswith('#')` test (lines 567-568): strips
one leading hash character. -/
def stripHash : List Char → List Char
  | [] => []
  | c :: rest => if c = '#' then rest else c :: rest

/-- `WatermarkRenderer._parse_color` (lines 565-582).  Returns `none` when
Python would raise (a 6- or 3-character string containing a non-hex digit);
any other length yields opaque white.  The alpha channel is
`int(255 * opacity)`. -/
def parseColor (colorStr : String) (opacity : ℚ) : Option (Nat × Nat × Nat × ℤ) :=
  let s := stripHash colorStr.data
  let a := pyTrunc (255 * opacity)
  match s with
  | [c1, c2, c3, c4, c5, c6] =>
    match hexPair c1 c2, hexPair c3 c4, hexPair c5 c6 with
    | some r, some g, some b => some (r, g, b, a)
    | _, _, _ => none
  | [c1, c2, c3] =>
    match hexVal c1, hexVal c2, hexVal c3 with
    | some r, some g, some b => some (17 * r, 17 * g, 17 * b, a)
    | _, _, _ => none
  | _ => some (255, 255, 255, a)

/- ==================== WatermarkRenderer._calculate_font_size (core.py 498-503) ==================== -/

/-- The `font` section of a style as seen by `_calculate_font_size`:
`style.get('font', {}).get('size_ratio', 0.025)`; `none` models a missing
`size_ratio` key (or missing `font` section), which defaults to `0.025`. -/
structure FontStyle where
  sizeRat : Option ℚ
deriving DecidableEq

/-- `style.get('font', {}).get('size_ratio', 0.025)` (line 501). -/
def getSizeRat (st : FontStyle) : ℚ :=
  st.sizeRat.getD (1/40)

/-- `WatermarkRenderer._calculate_font_size` (lines 498-503):
`short_edge = min(image_size)`, `font_size = int(short_edge * size_ratio)`,
`return max(font_size, 12)`. -/
def calculate_font_size (st : FontStyle) (w h : Nat) : ℤ :=
  max (pyTrunc ((min w h : ℚ) * getSizeRat st)) 12

/- ==================== TimeExtractor (core.py 338-431) ==================== -/

/-- A parsed `datetime` value. -/
structure PDateTime where
  year : Nat
  month : Nat
  day : Nat
  hour : Nat
  minute : Nat
  second : Nat
deriving DecidableEq

/-- Split a character list on a single-character separator, in the manner of
`str.split` with every separator occurrence producing a boundary. -/
def splitOnChar (sep : Char) : List Char → List (List Char)
  | [] => [[]]
  | c :: rest =>
    let r := splitOnChar sep rest
    if c = sep then [] :: r
    else
      match r with
      | [] => [[c]]
      | g :: gs => (c :: g) :: gs

/-- Value of one decimal digit character. -/
def digitVal (c : Char) : Option Nat :=
  if '0' ≤ c ∧ c ≤ '9' then some (c.toNat - 48) else none

/-- Accumulate the decimal value of a digit string. -/
def parseNatAux : List Char → Nat → Option Nat
  | [], acc => some acc
  | c :: rest, acc =>
    match digitVal c with
    | some d => parseNatAux rest (acc * 10 + d)
    | none => none

/-- Decimal value of a nonempty all-digit character list. -/
def parseNat : List Char → Option Nat
  | [] => none
  | c :: rest => parseNatAux (c :: rest) 0

/-- Parse a 1- or 2-digit numeric field (as `strptime`'s `%m`/`%d`/`%H`/`%M`/`%S`
directives do) and check its admissible range. -/
def parseField2 (l : List Char) (lo hi : Nat) : Option Nat :=
  if l.length = 0 ∨ 2 < l.length then none
  else
    match parseNat l with
    | some n => if lo ≤ n ∧ n ≤ hi then some n else none
    | none => none

/-- Parse the 4-digit `%Y` field; `datetime` requires `year ≥ 1`. -/
def parseYear (l : List Char) : Option Nat :=
  if l.length = 4 then
    match parseNat l with
    | some n => if 1 ≤ n then some n else none
    | none => none
  else none

/-- Gregorian leap-year test used by `datetime`'s day-of-month validation. -/
def isLeap (y : Nat) : Bool :=
  (y % 4 = 0 ∧ y % 100 ≠ 0) ∨ y % 400 = 0

/-- Number of days in a month, as validated by the `datetime` constructor. -/
def daysInMonth (y m : Nat) : Nat :=
  if m = 2 then (if isLeap y then 29 else 28)
  else if m = 4 ∨ m = 6 ∨ m = 9 ∨ m = 11 then 30
  else 31

/-- Assemble and validate a datetime from its six numeric fields, as the
`datetime` constructor invoked by `strptime` does. -/
def mkDateTime (y mo d h mi se : Option Nat) : Option PDateTime :=
  match y, mo, d, h, mi, se with
  | some y, some mo, some d, some h, some mi, some se =>
    if d ≤ daysInMonth y mo then some ⟨y, mo, d, h, mi, se⟩ else none
  | _, _, _, _, _, _ => none

/-- `datetime.strptime(dt_str, "%Y:%m:%d %H:%M:%S")` (lines 400/406/412):
`some` a parsed value, `none` models the `ValueError` raised on
non-matching input. -/
def parseExifDT (s : String) : Option PDateTime :=
  match splitOnChar ':' s.data with
  | [ys, ms, dhs, mins, secs] =>
    match splitOnChar ' ' dhs with
    | [ds, hs] =>
      mkDateTime (parseYear ys) (parseField2 ms 1 12) (parseField2 ds 1 31)
        (parseField2 hs 0 23) (parseField2 mins 0 59) (parseField2 secs 0 59)
    | _ => none
  | _ => none

/-- `datetime.strptime(custom_time, "%Y-%m-%d %H:%M:%S")` (lines 369/381). -/
def parseCustomFull (s : String) : Option PDateTime :=
  match splitOnChar ' ' s.data with
  | [dp, tp] =>
    match splitOnChar '-' dp, splitOnChar ':' tp with
    | [ys, ms, ds], [hs, mins, secs] =>
      mkDateTime (parseYear ys) (parseField2 ms 1 12) (parseField2 ds 1 31)
        (parseField2 hs 0 23) (parseField2 mins 0 59) (parseField2 secs 0 59)
    | _, _ => none
  | _ => none

/-- `datetime.strptime(custom_time, "%Y-%m-%d")` (lines 372/384). -/
def parseCustomDate (s : String) : Option PDateTime :=
  match splitOnChar '-' s.data with
  | [ys, ms, ds] =>
    mkDateTime (parseYear ys) (parseField2 ms 1 12) (parseField2 ds 1 31)
      (some 0) (some 0) (some 0)
  | _ => none

/-- The EXIF tags consulted by `get_exif_datetime`: `DateTimeOriginal` and
`DateTimeDigitized` in the `Exif` IFD, and `DateTime` in the `0th` IFD, each
already decoded to a string when present. -/
structure ExifTags where
  dateTimeOriginal : Option String
  dateTimeDigitized : Option String
  dateTime : Option String
deriving DecidableEq

/-- The error kinds raised by `TimeExtractor.extract`; in the source all are
`ValueError` with distinct messages. -/
inductive TimeError
  | timeUnavailable
  | invalidCustomTime
  | unknownMode
deriving DecidableEq

/-- `TimeExtractor.get_exif_datetime` (lines 391-418).  `loaded = none`
models `piexif.load` itself failing (the exception is caught and `None` is
returned).  Note the single `try/except` around the whole body: if the first
tag that is *present* fails to parse, the raised `ValueError` is caught and
the function returns `None` without consulting the remaining tags. -/
def get_exif_datetime (loaded : Option ExifTags) : Option PDateTime :=
  match loaded with
  | none => none
  | some tags =>
    match tags.dateTimeOriginal with
    | some s => parseExifDT s
    | none =>
      match tags.dateTimeDigitized with
      | some s => parseExifDT s
      | none =>
        match tags.dateTime with
        | some s => parseExifDT s
        | none => none

/-- Lines 366-375 / 378-387: parse `custom_time`, trying the full format then
the date-only format; an empty string raises "Custom time not set". -/
def parseCustomOrErr (customTime : String) : Except TimeError PDateTime :=
  if customTime = ("") then Except.error TimeError.invalidCustomTime
  else
    match parseCustomFull customTime with
    | some dt => Except.ok dt
    | none =>
      match parseCustomDate customTime with
      | some dt => Except.ok dt
      | none => Except.error TimeError.invalidCustomTime

/-- `TimeExtractor.get_file_datetime` (lines 420-431), with the filesystem
timestamps supplied as inputs; `hasBirthtime` models `hasattr(stat,
'st_birthtime')`. -/
def get_file_datetime (type_ : String) (fileModified fileBirth fileCtime : PDateTime)
    (hasBirthtime : Bool) : Except TimeError PDateTime :=
  if type_ = ("file_modified") then Except.ok fileModified
  else if type_ = ("file_created") then
    Except.ok (if hasBirthtime then fileBirth else fileCtime)
  else Except.error TimeError.unknownMode

/-- `TimeExtractor.extract` (lines 348-389), with the EXIF load result and the
file timestamps supplied as inputs. -/
def extract (primary fallbackMode customTime : String) (loaded : Option ExifTags)
    (fileModified fileBirth fileCtime : PDateTime) (hasBirthtime : Bool) :
    Except TimeError PDateTime :=
  if primary = ("exif") then
    match get_exif_datetime loaded with
    | some dt => Except.ok dt
    | none =>
      if fallbackMode = ("error") then Except.error TimeError.timeUnavailable
      else if fallbackMode = ("file_modified") then Except.ok fileModified
      else if fallbackMode = ("file_created") then
        Except.ok (if hasBirthtime then fileBirth else fileCtime)
      else if fallbackMode = ("custom") then parseCustomOrErr customTime
      else Except.error TimeError.unknownMode
  else if primary = ("custom") then parseCustomOrErr customTime
  else get_file_datetime primary fileModified fileBirth fileCtime hasBirthtime

/-- Spec-side helper: the first EXIF tag that is *present* (priority order
original, digitized, generic), regardless of whether it parses. -/
def firstPresentTag (loaded : Option ExifTags) : Option String :=
  match loaded with
  | none => none
  | some tags =>
    match tags.dateTimeOriginal with
    | some s => some s
    | none =>
      match tags.dateTimeDigitized with
      | some s => some s
      | none => tags.dateTime

/- ==================== StyleManager.load_style (core.py 295-317) ==================== -/

/-- Opaque payload of one style section (a parsed key-value mapping). -/
abbrev SectionVal := Nat

/-- A style definition file as a store of the five section keys read by
`load_style`; `none` models a key that is absent from the file. -/
structure StyleFile where
  font : Option SectionVal
  color : Option SectionVal
  position : Option SectionVal
  fmt : Option SectionVal
  effects : Option SectionVal
deriving DecidableEq

/-- A fully loaded style (the dict built on lines 307-313). -/
structure StyleVal where
  font : SectionVal
  color : SectionVal
  position : SectionVal
  fmt : SectionVal
  effects : SectionVal
deriving DecidableEq

/-- The on-disk style store: definition files under the two supported
extensions, keyed by style name. -/
structure StyleStore where
  yml : List (String × StyleFile)
  yaml : List (String × StyleFile)
deriving DecidableEq

/-- The two failure kinds of `load_style`; in the source both are raised as
`FileNotFoundError`, with distinct messages ("Style file not found" on line
304, "Cannot read style from SimpSave" on line 317). -/
inductive StyleLoadError
  | styleNotFound
  | cannotRead
deriving DecidableEq

/-- Lines 300-304: `styles_dir / f"{name}.yml"` if it exists, else the
`.yaml` variant, else no definition file matches. -/
def findStyleFile (store : StyleStore) (name : String) : Option StyleFile :=
  match store.yml.lookup name with
  | some f => some f
  | none => store.yaml.lookup name

/-- `ss.read(key, file=...)` on one section of a style file: simpsave's
`read` raises `KeyError` on a missing key (the source guards its other
`ss.read` calls with `ss.has`, and `load_style` converts any such failure to
`FileNotFoundError` on line 317). -/
def ssReadSection : Option SectionVal → Except Unit SectionVal
  | some v => Except.ok v
  | none => Except.error ()

/-- `StyleManager.load_style` (lines 295-317) over an explicit cache state.
Returns the result, the list of definition files read from disk during the
call, and the updated cache. -/
def load_style (store : StyleStore) (cache : List (String × StyleVal)) (name : String) :
    Except StyleLoadError StyleVal × List String × List (String × StyleVal) :=
  match cache.lookup name with
  | some st => (Except.ok st, [], cache)
  | none =>
    match findStyleFile store name with
    | none => (Except.error StyleLoadError.styleNotFound, [], cache)
    | some f =>
      match ssReadSection f.font, ssReadSection f.color, ssReadSection f.position,
            ssReadSection f.fmt, ssReadSection f.effects with
      | Except.ok a, Except.ok b, Except.ok c, Except.ok d, Except.ok e =>
        (Except.ok ⟨a, b, c, d, e⟩, [name], cache ++ [(name, ⟨a, b, c, d, e⟩)])
      | _, _, _, _, _ => (Except.error StyleLoadError.cannotRead, [name], cache)

/- ==================== Output path synthesis (core.py 630-653, 755-780) ==================== -/

/-- The pieces of an input path used by output-path synthesis:
`input_path.parent`, `input_path.stem`, `input_path.suffix`. -/
structure PathInfo where
  parent : String
  stem : String
  suffix : String
deriving DecidableEq

/-- The `output` configuration section fields consulted by path synthesis. -/
structure OutputCfg where
  sameDirectory : Bool
  customDirectory : String
  filenamePattern : String
deriving DecidableEq

/-- Lines 634-641 / 760-764: output directory selection. -/
def outputDir (cfg : OutputCfg) (inp : PathInfo) : String :=
  if cfg.sameDirectory then inp.parent
  else if cfg.customDirectory ≠ ("") then cfg.customDirectory
  else inp.parent

/-- Left-pad a string with zeros to a minimum width (Python `f'{n:03d}'`
semantics for `w = 3`). -/
def padZeros (w : Nat) (s : String) : String :=
  if s.length < w then String.mk (List.replicate (w - s.length) '0') ++ s else s

/-- `f'{index:03d}'` (line 777). -/
def pad3 (n : Nat) : String := padZeros 3 (Nat.repr n)

/-- `timestamp.strftime('%Y%m%d')` (lines 648/775). -/
def fmtDate (t : PDateTime) : String :=
  padZeros 4 (Nat.repr t.year) ++ padZeros 2 (Nat.repr t.month) ++ padZeros 2 (Nat.repr t.day)

/-- `timestamp.strftime('%H%M%S')` (lines 649/776). -/
def fmtTime (t : PDateTime) : String :=
  padZeros 2 (Nat.repr t.hour) ++ padZeros 2 (Nat.repr t.minute) ++ padZeros 2 (Nat.repr t.second)

/-- The keyword substitution available to `pattern.format(...)` on lines
646-651 / 773-778: the four tokens `original`, `date`, `time`, `index`; any
other field name raises `KeyError`. -/
def substTok (original date time index : String) (nm : String) : Option String :=
  if nm = ("original") then some original
  else if nm = ("date") then some date
  else if nm = ("time") then some time
  else if nm = ("index") then some index
  else none

/-- Core of Python `str.format`: scan the pattern, replacing `\x7bname\x7d`
fields via `sub`, handling doubled braces as escapes; `none` models the
`KeyError`/`ValueError` raised on unknown fields or unbalanced braces.  The
`mode` argument is `none` outside a replacement field and `some acc` (with
the reversed field-name characters read so far) inside one. -/
def fmtRun (sub : String → Option String) (l : List Char) (mode : Option (List Char)) :
    Option String :=
  match l, mode with
  | [], none => some ("")
  | [], some _ => none
  | c :: rest, none =>
    if c = '\x7b' then
      match rest with
      | [] => none
      | c2 :: rest2 =>
        if c2 = '\x7b' then (fmtRun sub rest2 none).map (fun r => String.singleton c ++ r)
        else fmtRun sub (c2 :: rest2) (some [])
    else if c = '\x7d' then
      match rest with
      | [] => none
      | c2 :: rest2 =>
        if c2 = '\x7d' then (fmtRun sub rest2 none).map (fun r => String.singleton c ++ r)
        else none
    else (fmtRun sub rest none).map (fun r => String.singleton c ++ r)
  | c :: rest, some acc =>
    if c = '\x7d' then
      match sub (String.mk acc.reverse) with
      | some v => (fmtRun sub rest none).map (fun r => v ++ r)
      | none => none
    else fmtRun sub rest (some (c :: acc))

/-- `pattern.format(original=..., date=..., time=..., index=...)`. -/
def formatPattern (pattern original date time index : String) : Option String :=
  fmtRun (substTok original date time index) pattern.data none

/-- `ImageProcessor.generate_output_path` (lines 630-653), with the resolved
timestamp as an input; called outside a batch, `index` is the literal
`'001'`. -/
def generate_output_path (cfg : OutputCfg) (inp : PathInfo) (ts : PDateTime) :
    Option String :=
  (formatPattern cfg.filenamePattern inp.stem (fmtDate ts) (fmtTime ts) ("001")).map
    (fun fn => outputDir cfg inp ++ ("/") ++ fn ++ inp.suffix)

/-- `BatchProcessor._generate_indexed_output_path` (lines 755-780), with the
timestamp it resolves on lines 766-769 supplied as an input;
`index` is substituted as `f'{index:03d}'`. -/
def generate_indexed_output_path (cfg : OutputCfg) (inp : PathInfo) (ts : PDateTime)
    (index : Nat) : Option String :=
  (formatPattern cfg.filenamePattern inp.stem (fmtDate ts) (fmtTime ts) (pad3 index)).map
    (fun fn => outputDir cfg inp ++ ("/") ++ fn ++ inp.suffix)

/- ==================== ImageProcessor.process (core.py 598-628) ==================== -/

/-- The environment facts that determine one run of `ImageProcessor.process`:
whether each fallible step succeeds, whether the synthesized target already
exists, and the `overwrite_existing` configuration flag. -/
structure IPWorld where
  styleOk : Bool
  decodeOk : Bool
  timeOk : Bool
  targetExists : Bool
  overwrite : Bool
  saveOk : Bool
deriving DecidableEq

/-- Observable steps of the per-file pipeline, in source order. -/
inductive IPEvent
  | loadStyle
  | decode
  | extractTime
  | render
  | mkdir
  | save
deriving DecidableEq

/-- `ImageProcessor.process` (lines 598-628): load style, open image, extract
time, render, make parent dirs, then either skip (target exists and
`overwrite_existing` false: return `False`, nothing written) or save.
Exceptions are logged and re-raised (lines 626-628), modelled as
`Except.error`; the event list records which steps ran, `IPEvent.save`
meaning a completed write of the target file. -/
def IPprocess (w : IPWorld) : Except String Bool × List IPEvent :=
  if w.styleOk then
    if w.decodeOk then
      if w.timeOk then
        let pre := [IPEvent.loadStyle, IPEvent.decode, IPEvent.extractTime,
                    IPEvent.render, IPEvent.mkdir]
        if w.targetExists && !w.overwrite then (Except.ok false, pre)
        else if w.saveOk then (Except.ok true, pre ++ [IPEvent.save])
        else (Except.error ("EncodeFailure"), pre)
      else (Except.error ("Cannot get EXIF time&无法获取EXIF时间"),
            [IPEvent.loadStyle, IPEvent.decode])
    else (Except.error ("DecodeFailure"), [IPEvent.loadStyle])
  else (Except.error ("Style file not found&样式文件不存在"), [])

/- ==================== BatchProcessor (core.py 678-780) ==================== -/

/-- The observable outcome of `processor.process` for one batch item:
a `True` return, a `False` return (overwrite skip), or a raised exception
with its message. -/
inductive PResult
  | success
  | skipped
  | raised (msg : String)
deriving DecidableEq

/-- `isRaised r` is `true` exactly when `r` is a raised exception. -/
def isRaised : PResult → Bool
  | PResult.raised _ => true
  | _ => false

/-- One batch item: the file name, whether its preview generation (lines
720-728) succeeds, and the outcome of its per-file pipeline call. -/
structure BItem where
  name : String
  previewOk : Bool
  result : PResult
deriving DecidableEq

/-- The `results` dict built by `process_batch` (lines 695-699):
`success`, `failed`, `errors`. -/
structure BatchResult where
  success : Nat
  failed : Nat
  errors : List String
deriving DecidableEq

/-- Observable events of one batch run: the cancellation-flag check at the
top of each loop iteration (line 711), a progress callback invocation (line
718), a preview callback invocation (line 726), and the per-file pipeline
call (line 735, `processor.process` — the item's decode/render/save work). -/
inductive BEvent
  | checkFlag (i : Nat)
  | progress (current total : Nat) (name : String)
  | preview (name : String)
  | process (name : String)
deriving DecidableEq

/-- Line 740: the error text appended when `processor.process` returns
`False`. -/
def skipErrMsg (name : String) : String :=
  ("Processing failed&处理失败: ") ++ name

/-- Line 745: the message of the exception re-raised when
`processor.process` raises. -/
def raiseErrMsg (name msg : String) : String :=
  ("Processing failed&处理失败 [") ++ name ++ ("]: ") ++ msg

/-- The events emitted for one (non-cancelled) loop iteration at 0-based
index `i` (lines 711-735): flag check, then the progress callback with the
1-based index, then the preview callback (when supplied and successful),
then the per-file pipeline call. -/
def itemTrace (hp hv : Bool) (total i : Nat) (it : BItem) : List BEvent :=
  [BEvent.checkFlag i]
    ++ (if hp then [BEvent.progress (i + 1) total it.name] else [])
    ++ (if hv && it.previewOk then [BEvent.preview it.name] else [])
    ++ [BEvent.process it.name]

/-- The loop of `process_batch` (lines 710-748) over the remaining items,
with `i` the 0-based index of the first of them, `flag j` the value of
`self._cancelled` observed at the check before item `j`, and `acc` the
`results` dict so far.  A `False` return counts as failed and appends
`skipErrMsg` (lines 738-740); a raised exception is re-raised (lines
741-745), aborting the loop and discarding the tallies. -/
def runItems (total : Nat) (hp hv : Bool) (flag : Nat → Bool) :
    List BItem → Nat → BatchResult → List BEvent →
    Except String BatchResult × List BEvent
  | [], _, acc, tr => (Except.ok acc, tr)
  | it :: rest, i, acc, tr =>
    if flag i then (Except.ok acc, tr ++ [BEvent.checkFlag i])
    else
      let tr2 := tr ++ itemTrace hp hv total i it
      match it.result with
      | PResult.success =>
        runItems total hp hv flag rest (i + 1)
          ⟨acc.success + 1, acc.failed, acc.errors⟩ tr2
      | PResult.skipped =>
        runItems total hp hv flag rest (i + 1)
          ⟨acc.success, acc.failed + 1, acc.errors ++ [skipErrMsg it.name]⟩ tr2
      | PResult.raised m => (Except.error (raiseErrMsg it.name m), tr2)

/-- `BatchProcessor.process_batch` (lines 686-748).  `priorCancelled` is the
value of `self._cancelled` left over from before the call; line 694
unconditionally resets it, so the flag observed at check `j` is just
`schedule j`, the record of when an external `cancel()` (lines 750-753) has
taken effect.  `styleOk` is the up-front style load of lines 704-708, whose
failure is re-raised before any item is processed. -/
def process_batch (_priorCancelled : Bool) (styleOk : Bool) (items : List BItem)
    (hp hv : Bool) (schedule : Nat → Bool) : Except String BatchResult × List BEvent :=
  if styleOk then runItems items.length hp hv schedule items 0 ⟨0, 0, []⟩ []
  else (Except.error ("Failed to load style&加载样式失败"), [])

/-- The `PResult` realized by a per-file pipeline run in world `w`. -/
def outcomeOfWorld (w : IPWorld) : PResult :=
  match (IPprocess w).1 with
  | Except.ok true => PResult.success
  | Except.ok false => PResult.skipped
  | Except.error m => PResult.raised m

/-- Number of items of a batch whose pipeline call returns `True`. -/
def countSucc : List BItem → Nat
  | [] => 0
  | it :: rest => (match it.result with | PResult.success => 1 | _ => 0) + countSucc rest

/-- Number of items of a batch whose pipeline call returns `False`. -/
def countFail : List BItem → Nat
  | [] => 0
  | it :: rest => (match it.result with | PResult.skipped => 1 | _ => 0) + countFail rest

/-- The error messages accumulated for a run in which no item raises. -/
def skipErrors : List BItem → List String
  | [] => []
  | it :: rest =>
    (match it.result with | PResult.skipped => [skipErrMsg it.name] | _ => []) ++ skipErrors rest

/-- The full event trace of an uncancelled, non-aborting run over `items`
starting at 0-based index `i`. -/
def cleanTrace (hp hv : Bool) (total : Nat) : List BItem → Nat → List BEvent
  | [], _ => []
  | it :: rest, i => itemTrace hp hv total i it ++ cleanTrace hp hv total rest (i + 1)

/- ==================== Helper lemmas ==================== -/

/-- Main batch loop decomposition: a prefix of non-raising items on which the
cancellation flag is never observed set is consumed exactly, accumulating its
tallies, messages and trace. -/
theorem runItems_append (total : Nat) (hp hv : Bool) (flag : Nat → Bool) :
    ∀ (pre l2 : List BItem) (i : Nat) (acc : BatchResult) (tr : List BEvent),
      (∀ j, j < pre.length → flag (i + j) = false) →
      (∀ it ∈ pre, isRaised it.result = false) →
      runItems total hp hv flag (pre ++ l2) i acc tr =
        runItems total hp hv flag l2 (i + pre.length)
          ⟨acc.success + countSucc pre, acc.failed + countFail pre,
           acc.errors ++ skipErrors pre⟩
          (tr ++ cleanTrace hp hv total pre i)
  | [], l2, i, acc, tr, _, _ => by
    simp [countSucc, countFail, skipErrors, cleanTrace]
  | it :: pre, l2, i, acc, tr, hf, hr => by
    have hfi : flag i = false := by simpa using hf 0 (by simp)
    have hri : isRaised it.result = false := hr it (by simp)
    have hf' : ∀ j, j < pre.length → flag (i + 1 + j) = false := by
      intro j hj
      have := hf (j + 1) (by simp; omega)
      simpa [Nat.add_comm, Nat.add_assoc, Nat.add_left_comm] using this
    have hr' : ∀ it ∈ pre, isRaised it.result = false := fun x hx => hr x (by simp [hx])
    cases hres : it.result with
    | success =>
      rw [List.cons_append, runItems, hfi]
      simp only [Bool.false_eq_true, if_false, hres]
      rw [runItems_append total hp hv flag pre l2 (i + 1) _ _ hf' hr']
      simp [countSucc, countFail, skipErrors, cleanTrace, hres, Nat.add_assoc,
        Nat.add_comm, Nat.add_left_comm, List.append_assoc]
    | skipped =>
      rw [List.cons_append, runItems, hfi]
      simp only [Bool.false_eq_true, if_false, hres]
      rw [runItems_append total hp hv flag pre l2 (i + 1) _ _ hf' hr']
      simp [countSucc, countFail, skipErrors, cleanTrace, hres, Nat.add_assoc,
        Nat.add_comm, Nat.add_left_comm, List.append_assoc]
    | raised m => simp [isRaised, hres] at hri

/-- A run over non-raising items with the flag never observed set completes,
returning the accumulated tallies and the clean trace. -/
theorem runItems_complete (total : Nat) (hp hv : Bool) (flag : Nat → Bool)
    (items : List BItem) (i : Nat) (acc : BatchResult) (tr : List BEvent)
    (hf : ∀ j, j < items.length → flag (i + j) = false)
    (hr : ∀ it ∈ items, isRaised it.result = false) :
    runItems total hp hv flag items i acc tr =
      (Except.ok ⟨acc.success + countSucc items, acc.failed + countFail items,
                  acc.errors ++ skipErrors items⟩,
       tr ++ cleanTrace hp hv total items i) := by
  have := runItems_append total hp hv flag items [] i acc tr hf hr
  simpa [runItems] using this

/-- In a non-raising batch, every item contributes exactly one unit to
`success + failed`. -/
theorem countSucc_add_countFail (items : List BItem)
    (hr : ∀ it ∈ items, isRaised it.result = false) :
    countSucc items + countFail items = items.length := by
  induction items with
  | nil => simp [countSucc, countFail]
  | cons it rest ih =>
    have hri : isRaised it.result = false := hr it (by simp)
    have ih' := ih (fun x hx => hr x (by simp [hx]))
    cases hres : it.result <;>
      simp [countSucc, countFail, hres, isRaised] at hri ⊢ <;> omega

/-- Each `False` return appends exactly one error message. -/
theorem skipErrors_length (items : List BItem) :
    (skipErrors items).length = countFail items := by
  induction items with
  | nil => simp [skipErrors, countFail]
  | cons it rest ih =>
    cases hres : it.result <;> (simp [skipErrors, countFail, hres, ih]; try omega)

/-- The clean trace contains the per-file pipeline call of every item. -/
theorem process_mem_cleanTrace (hp hv : Bool) (total : Nat) :
    ∀ (items : List BItem) (i : Nat), ∀ it ∈ items,
      BEvent.process it.name ∈ cleanTrace hp hv total items i
  | it0 :: rest, i, it, hmem => by
    rcases List.mem_cons.mp hmem with h | h
    · subst h
      simp [cleanTrace, itemTrace]
    · have := process_mem_cleanTrace hp hv total rest (i + 1) it h
      simp [cleanTrace, this]

/-- The clean trace distributes over list append. -/
theorem cleanTrace_append (hp hv : Bool) (total : Nat) :
    ∀ (l1 l2 : List BItem) (i : Nat),
      cleanTrace hp hv total (l1 ++ l2) i =
        cleanTrace hp hv total l1 i ++ cleanTrace hp hv total l2 (i + l1.length)
  | [], l2, i => by simp [cleanTrace]
  | it :: l1, l2, i => by
    rw [List.cons_append, cleanTrace, cleanTrace,
      cleanTrace_append hp hv total l1 l2 (i + 1)]
    simp [List.append_assoc, Nat.add_assoc, Nat.add_comm, Nat.add_left_comm]

/-- Appending a new binding for an absent key makes lookup find it. -/
theorem lookup_append_self (cache : List (String × StyleVal)) (name : String)
    (st : StyleVal) (h : cache.lookup name = none) :
    (cache ++ [(name, st)]).lookup name = some st := by
  induction cache with
  | nil => simp [List.lookup]
  | cons p rest ih =>
    rw [List.cons_append, List.lookup]
    rw [List.lookup] at h
    by_cases hk : name == p.1
    · simp [hk] at h
    · simp only [hk, if_false] at h ⊢
      exact ih h

/-- A character accepted by `int(-, 16)` as a hex digit is not the hash
character stripped on lines 567-568. -/
theorem hexVal_ne_hash (c : Char) (v : Nat) (h : hexVal c = some v) : ¬ c = '#' := by
  intro hc
  subst hc
  rw [show hexVal '#' = none from by decide] at h
  exact Option.noConfusion h

/- ==================== Claim theorems ==================== -/

/-- Claim C10 (confirmed): `_parse_color` is partial rather than total — on a
6-character (or 3-character) string containing a non-hex character such as
`zzzzzz` it raises (`none`) instead of returning a color, while the
default-to-opaque-white branch applies to invalid lengths only (a 7-character
string yields opaque white). -/
theorem parse_color_partiality :
    parseColor ("zzzzzz") 1 = none
  ∧ parseColor ("zzz") 1 = none
  ∧ parseColor ("zzzzzzz") 1 = some (255, 255, 255, 255) := by
  have hzh : ¬ ('z' = '#') := by decide
  have hz : hexVal 'z' = none := by decide
  refine ⟨?_, ?_, ?_⟩
  · have hd : ("zzzzzz").data = ['z', 'z', 'z', 'z', 'z', 'z'] := rfl
    simp [parseColor, stripHash, hd, hzh, hexPair, hz]
  · have hd : ("zzz").data = ['z', 'z', 'z'] := rfl
    simp [parseColor, stripHash, hd, hzh, hz]
  · have hd : ("zzzzzzz").data = ['z', 'z', 'z', 'z', 'z', 'z', 'z'] := rfl
    simp [parseColor, stripHash, hd, hzh]
    rw [pyTrunc, if_neg (by norm_num)]
    norm_num

/-- Claim C4 counterexample: at color `ffffff` and opacity `1/2` the code
computes alpha `int(255 * 0.5) = 127`, whereas `round(255 * 0.5) = 128`, so
the alpha component does not equal `round(255 * opacity)`. -/
theorem parse_color_alpha_cex :
    parseColor ("ffffff") (1/2) = some (255, 255, 255, 127)
  ∧ round ((255 : ℚ) * (1/2)) = 128
  ∧ (127 : ℤ) ≠ 128 := by
  have hfh : ¬ ('f' = '#') := by decide
  have hff : hexPair 'f' 'f' = some 255 := by decide
  refine ⟨?_, ?_, by norm_num⟩
  · have hd : ("ffffff").data = ['f', 'f', 'f', 'f', 'f', 'f'] := rfl
    simp [parseColor, stripHash, hd, hfh, hff]
    rw [pyTrunc, if_neg (by norm_num)]
    norm_num
  · norm_num [round_eq]

/-- Claim C4 (amended): every valid 6-digit hex code yields exactly the
encoded RGB triple, every valid 3-digit hex code yields the triple with each
nibble duplicated (`17 * d`), any other length yields opaque white — and in
all cases the alpha component is `int(255 * opacity)`, i.e. `255 * opacity`
truncated toward zero (not rounded). -/
theorem parse_color_hex_spec (c1 c2 c3 c4 c5 c6 : Char) (v1 v2 v3 v4 v5 v6 : Nat)
    (s : String) (op : ℚ)
    (h1 : hexVal c1 = some v1) (h2 : hexVal c2 = some v2) (h3 : hexVal c3 = some v3)
    (h4 : hexVal c4 = some v4) (h5 : hexVal c5 = some v5) (h6 : hexVal c6 = some v6) :
    parseColor (String.mk [c1, c2, c3, c4, c5, c6]) op
      = some (16 * v1 + v2, 16 * v3 + v4, 16 * v5 + v6, pyTrunc (255 * op))
  ∧ parseColor (String.mk [c1, c2, c3]) op
      = some (17 * v1, 17 * v2, 17 * v3, pyTrunc (255 * op))
  ∧ ((stripHash s.data).length ≠ 3 → (stripHash s.data).length ≠ 6 →
      parseColor s op = some (255, 255, 255, pyTrunc (255 * op))) := by
  have hn1 : ¬ c1 = '#' := hexVal_ne_hash c1 v1 h1
  refine ⟨?_, ?_, ?_⟩
  · simp [parseColor, stripHash, hn1, hexPair, h1, h2, h3, h4, h5, h6]
  · simp [parseColor, stripHash, hn1, h1, h2, h3]
  · intro hl3 hl6
    unfold parseColor
    rcases hsd : stripHash s.data with _ | ⟨a, _ | ⟨b, _ | ⟨c, _ | ⟨d, _ | ⟨e, _ | ⟨f, _ | ⟨g, l⟩⟩⟩⟩⟩⟩⟩ <;>
      simp_all

/-- Witness for C4's theorem at concrete inputs: all hypotheses hold for the
digit `f` and the conclusions evaluate. -/
theorem parse_color_hex_spec_witness :
    hexVal 'f' = some 15
  ∧ (parseColor (String.mk ['f', 'f', 'f', 'f', 'f', 'f']) (1/2)
       = some (16 * 15 + 15, 16 * 15 + 15, 16 * 15 + 15, pyTrunc (255 * (1/2)))
     ∧ parseColor (String.mk ['f', 'f', 'f']) (1/2)
       = some (17 * 15, 17 * 15, 17 * 15, pyTrunc (255 * (1/2)))
     ∧ ((stripHash ("#ab").data).length ≠ 3 → (stripHash ("#ab").data).length ≠ 6 →
        parseColor ("#ab") (1/2) = some (255, 255, 255, pyTrunc (255 * (1/2))))) :=
  ⟨by decide,
   parse_color_hex_spec 'f' 'f' 'f' 'f' 'f' 'f' 15 15 15 15 15 15 ("#ab") (1/2)
     (by decide) (by decide) (by decide) (by decide) (by decide) (by decide)⟩

/-- Claim C8 (confirmed): the computed font size equals
`max(12, floor(short_edge * size_ratio))` with `short_edge = min(w, h)`; it
never falls below 12; and for a fixed style with `size_ratio ≥ 0` it is
monotonically non-decreasing in the short edge. -/
theorem font_size_spec (st : FontStyle) (w h w2 h2 : Nat) :
    calculate_font_size st w h = max 12 (Int.floor ((min w h : ℚ) * getSizeRat st))
  ∧ 12 ≤ calculate_font_size st w h
  ∧ (0 ≤ getSizeRat st → min w h ≤ min w2 h2 →
      calculate_font_size st w h ≤ calculate_font_size st w2 h2) := by
  refine ⟨?_, le_max_right _ _, ?_⟩
  · by_cases hq : ((min w h : ℚ) * getSizeRat st) < 0
    · have h1 : Int.floor ((min w h : ℚ) * getSizeRat st) ≤ 0 :=
        Int.floor_nonpos (le_of_lt hq)
      have h2 : (0 : ℤ) ≤ Int.floor (-((min w h : ℚ) * getSizeRat st)) :=
        Int.floor_nonneg.mpr (by linarith)
      rw [calculate_font_size, pyTrunc, if_pos hq]
      rw [max_eq_right (by omega), max_eq_left (by omega)]
    · rw [calculate_font_size, pyTrunc, if_neg hq, max_comm]
  · intro hr hm
    have hq1 : ¬ ((min w h : ℚ) * getSizeRat st) < 0 := by
      push_neg
      exact mul_nonneg (by positivity) hr
    have hq2 : ¬ ((min w2 h2 : ℚ) * getSizeRat st) < 0 := by
      push_neg
      exact mul_nonneg (by positivity) hr
    rw [calculate_font_size, calculate_font_size, pyTrunc, pyTrunc, if_neg hq1, if_neg hq2]
    refine max_le_max ?_ le_rfl
    refine Int.floor_le_floor ?_
    refine mul_le_mul_of_nonneg_right ?_ hr
    exact_mod_cast hm

/-- Witness for C8's theorem: monotonicity at concrete image sizes with the
default `size_ratio`. -/
theorem font_size_spec_witness :
    (0 ≤ getSizeRat ⟨none⟩ ∧ min 800 600 ≤ min 1600 1200)
  ∧ calculate_font_size ⟨none⟩ 800 600 ≤ calculate_font_size ⟨none⟩ 1600 1200 :=
  ⟨⟨by norm_num [getSizeRat], by norm_num⟩,
   (font_size_spec ⟨none⟩ 800 600 1600 1200).2.2 (by norm_num [getSizeRat]) (by norm_num)⟩

/-- Claim C5 counterexample: with `DateTimeOriginal` present but unparsable
(`garbage`) and `DateTimeDigitized` present and parsable, `extract` with
`primary = exif`, `fallback_mode = error` fails with `TimeUnavailable`
instead of returning the digitized time — the first *present* tag wins, not
the first tag that *parses*. -/
theorem extract_exif_fallthrough_cex :
    extract ("exif") ("error") ("")
        (some ⟨some ("garbage"), some ("2023:07:04 10:15:00"), none⟩)
        ⟨2000, 1, 1, 0, 0, 0⟩ ⟨2000, 1, 1, 0, 0, 0⟩ ⟨2000, 1, 1, 0, 0, 0⟩ true
      = Except.error TimeError.timeUnavailable
  ∧ parseExifDT ("2023:07:04 10:15:00") = some ⟨2023, 7, 4, 10, 15, 0⟩ := by
  constructor
  · rfl
  · rfl

/-- Claim C5 (amended): with `primary = exif` the extractor consults the tags
in priority order of *presence* (original, digitized, generic) and returns
the parse of the first present tag; if that value does not parse, the
remaining tags are not consulted and the EXIF read yields nothing; whenever
the EXIF read yields nothing and `fallback_mode = error`, `extract` fails
with `TimeUnavailable`. -/
theorem extract_exif_priority_spec (ct : String) (loaded : Option ExifTags)
    (fm fb fc : PDateTime) (hb : Bool) :
    extract ("exif") ("error") ct loaded fm fb fc hb =
      (match firstPresentTag loaded with
       | some s =>
         (match parseExifDT s with
          | some dt => Except.ok dt
          | none => Except.error TimeError.timeUnavailable)
       | none => Except.error TimeError.timeUnavailable)
  ∧ (get_exif_datetime loaded = none →
      extract ("exif") ("error") ct loaded fm fb fc hb
        = Except.error TimeError.timeUnavailable) := by
  constructor
  · rcases loaded with _ | ⟨o, d, t⟩
    · simp [extract, get_exif_datetime, firstPresentTag]
    · rcases o with _ | s1
      · rcases d with _ | s2
        · rcases t with _ | s3
          · simp [extract, get_exif_datetime, firstPresentTag]
          · cases hp : parseExifDT s3 <;>
              simp [extract, get_exif_datetime, firstPresentTag, hp]
        · cases hp : parseExifDT s2 <;>
            simp [extract, get_exif_datetime, firstPresentTag, hp]
      · cases hp : parseExifDT s1 <;>
          simp [extract, get_exif_datetime, firstPresentTag, hp]
  · intro h
    simp [extract, h]

/-- Witness for C5's theorem: with no EXIF data at all, extraction under
`fallback_mode = error` fails with `TimeUnavailable`. -/
theorem extract_exif_priority_spec_witness :
    get_exif_datetime none = none
  ∧ extract ("exif") ("error") ("") none ⟨2000, 1, 1, 0, 0, 0⟩ ⟨2000, 1, 1, 0, 0, 0⟩
      ⟨2000, 1, 1, 0, 0, 0⟩ true = Except.error TimeError.timeUnavailable :=
  ⟨rfl,
   (extract_exif_priority_spec ("") none ⟨2000, 1, 1, 0, 0, 0⟩ ⟨2000, 1, 1, 0, 0, 0⟩
     ⟨2000, 1, 1, 0, 0, 0⟩ true).2 rfl⟩

/-- Claim C6 counterexample: a style definition file for `X` exists but lacks
the `effects` section; `load_style` raises (the "Cannot read style" failure)
instead of succeeding with the missing section defaulted to an empty mapping
— and since the file does exist, the failure is not the no-matching-file
condition, refuting "fails with StyleNotFound exactly when no definition
file matches". -/
theorem load_style_missing_section_cex :
    load_style ⟨[(("X"), ⟨some 0, some 0, some 0, some 0, none⟩)], []⟩ [] ("X")
      = (Except.error StyleLoadError.cannotRead, [("X")], [])
  ∧ findStyleFile ⟨[(("X"), ⟨some 0, some 0, some 0, some 0, none⟩)], []⟩ ("X")
      = some ⟨some 0, some 0, some 0, some 0, none⟩ := by
  constructor
  · rfl
  · rfl

/-- Claim C6 (amended): `load_style` returns the cached style with no disk
read for a name in the cache, and a successful load caches its result so a
reload reads nothing; when no definition file matches the name under either
supported extension it fails with the style-not-found error; but a
definition file missing one of the five sections makes it fail with the
cannot-read error (raised as the same `FileNotFoundError` type) rather than
succeed with the missing section defaulted. -/
theorem load_style_spec (store : StyleStore) (cache : List (String × StyleVal))
    (name : String) :
    (∀ st, cache.lookup name = some st →
      load_style store cache name = (Except.ok st, [], cache))
  ∧ (∀ st reads cache2, load_style store cache name = (Except.ok st, reads, cache2) →
      load_style store cache2 name = (Except.ok st, [], cache2))
  ∧ (cache.lookup name = none → findStyleFile store name = none →
      (load_style store cache name).1 = Except.error StyleLoadError.styleNotFound)
  ∧ (∀ f, cache.lookup name = none → findStyleFile store name = some f →
      f.effects = none →
      (load_style store cache name).1 = Except.error StyleLoadError.cannotRead) := by
  refine ⟨?_, ?_, ?_, ?_⟩
  · intro st h
    simp [load_style, h]
  · intro st reads cache2 h
    cases hl : cache.lookup name with
    | some st0 =>
      simp [load_style, hl] at h
      obtain ⟨h1, _, h3⟩ := h
      subst h1
      subst h3
      simp [load_style, hl]
    | none =>
      cases hf : findStyleFile store name with
      | none => simp [load_style, hl, hf] at h
      | some f =>
        rcases f with ⟨o1, o2, o3, o4, o5⟩
        cases o1 <;> cases o2 <;> cases o3 <;> cases o4 <;> cases o5 <;>
          simp [load_style, hl, hf, ssReadSection] at h
        obtain ⟨h1, _, h3⟩ := h
        subst h1
        subst h3
        simp [load_style, lookup_append_self cache name _ hl]
  · intro h1 h2
    simp [load_style, h1, h2]
  · intro f h1 h2 h3
    rcases f with ⟨o1, o2, o3, o4, o5⟩
    simp at h3
    subst h3
    cases o1 <;> cases o2 <;> cases o3 <;> cases o4 <;>
      simp [load_style, h1, h2, ssReadSection]

/-- Witness for C6's theorem: a cache hit returns the cached style with no
disk read. -/
theorem load_style_spec_witness :
    ([(("X"), (⟨1, 2, 3, 4, 5⟩ : StyleVal))]).lookup ("X") = some ⟨1, 2, 3, 4, 5⟩
  ∧ load_style ⟨[], []⟩ [(("X"), ⟨1, 2, 3, 4, 5⟩)] ("X")
      = (Except.ok ⟨1, 2, 3, 4, 5⟩, [], [(("X"), ⟨1, 2, 3, 4, 5⟩)]) :=
  ⟨by rfl,
   (load_style_spec ⟨[], []⟩ [(("X"), ⟨1, 2, 3, 4, 5⟩)] ("X")).1 ⟨1, 2, 3, 4, 5⟩ (by rfl)⟩

/-- Padding to a minimum width yields exactly that width when the input is no
longer than it. -/
theorem padZeros_length (w : Nat) (s : String) (h : s.length ≤ w) :
    (padZeros w s).length = w := by
  rw [padZeros]
  by_cases hl : s.length < w
  · rw [if_pos hl, String.length_append]
    simp [String.length_mk]
    omega
  · rw [if_neg hl]
    omega

/-- Decimal representations of numbers below 1000 have at most 3 digits. -/
theorem repr_length_le_three : ∀ i, i < 1000 → (Nat.repr i).length ≤ 3 := by
  decide

/-- Claim C7 (confirmed): output filename synthesis is pure and deterministic
in the input path, resolved timestamp, configuration and batch index; the
tokens substitute as `original` = input stem, `date` = `YYYYMMDD`, `time` =
`HHMMSS`, `index` = the zero-padded (minimum width 3) 1-based batch position
— exactly 3 digits for positions below 1000, and literally `001` outside a
batch, where `generate_output_path` coincides with the indexed synthesis at
position 1; and the output extension equals the input's extension. -/
theorem output_path_synthesis_spec (cfg : OutputCfg) (inp : PathInfo) (ts : PDateTime)
    (i : Nat) :
    generate_indexed_output_path cfg inp ts i = generate_indexed_output_path cfg inp ts i
  ∧ generate_output_path cfg inp ts = generate_indexed_output_path cfg inp ts 1
  ∧ formatPattern ("{original}_{date}_{time}_{index}")
      inp.stem (fmtDate ts) (fmtTime ts) (pad3 i)
      = some (inp.stem ++ ("_") ++ fmtDate ts ++ ("_") ++ fmtTime ts ++ ("_") ++ pad3 i)
  ∧ (i < 1000 → (pad3 i).length = 3)
  ∧ (∀ fn, formatPattern cfg.filenamePattern inp.stem (fmtDate ts) (fmtTime ts) (pad3 i)
        = some fn →
      generate_indexed_output_path cfg inp ts i
        = some (outputDir cfg inp ++ ("/") ++ fn ++ inp.suffix)) := by
  refine ⟨rfl, ?_, ?_, ?_, ?_⟩
  · rw [generate_output_path, generate_indexed_output_path,
      show pad3 1 = ("001") from rfl]
  · simp +decide [formatPattern, fmtRun, substTok, String.singleton]
    have hp : ("").push '_' = ("_") := rfl
    rw [hp]
    simp [String.append_assoc]
  · intro h
    exact padZeros_length 3 (Nat.repr i) (repr_length_le_three i h)
  · intro fn h
    simp [generate_indexed_output_path, h]

/-- Witness for C7's theorem at concrete inputs: the default pattern
`\x7boriginal\x7d_stamped`, input stem `IMG`, extension `.jpg`. -/
theorem output_path_synthesis_spec_witness :
    generate_output_path ⟨true, (""), ("{original}_stamped")⟩
        ⟨("/p"), ("IMG"), (".jpg")⟩ ⟨2023, 7, 4, 10, 15, 0⟩
      = generate_indexed_output_path ⟨true, (""), ("{original}_stamped")⟩
          ⟨("/p"), ("IMG"), (".jpg")⟩ ⟨2023, 7, 4, 10, 15, 0⟩ 1
  ∧ (pad3 5).length = 3
  ∧ generate_indexed_output_path ⟨true, (""), ("{original}_stamped")⟩
        ⟨("/p"), ("IMG"), (".jpg")⟩ ⟨2023, 7, 4, 10, 15, 0⟩ 5
      = some (outputDir ⟨true, (""), ("{original}_stamped")⟩ ⟨("/p"), ("IMG"), (".jpg")⟩
          ++ ("/") ++ (("IMG") ++ ("_stamped")) ++ (".jpg")) :=
  ⟨(output_path_synthesis_spec ⟨true, (""), ("{original}_stamped")⟩
      ⟨("/p"), ("IMG"), (".jpg")⟩ ⟨2023, 7, 4, 10, 15, 0⟩ 1).2.1,
   (output_path_synthesis_spec ⟨true, (""), ("{original}_stamped")⟩
      ⟨("/p"), ("IMG"), (".jpg")⟩ ⟨2023, 7, 4, 10, 15, 0⟩ 5).2.2.2.1 (by norm_num),
   (output_path_synthesis_spec ⟨true, (""), ("{original}_stamped")⟩
      ⟨("/p"), ("IMG"), (".jpg")⟩ ⟨2023, 7, 4, 10, 15, 0⟩ 5).2.2.2.2
     (("IMG") ++ ("_stamped")) (by rfl)⟩

/-- Claim C3 (confirmed): `process_batch` resets the cancellation flag on
entry (its result is independent of the flag value left over from before the
call), checks the flag before starting each item, and when `cancel()` takes
effect after item `k` completes (the flag is observed set from check `k`
on), the returned `BatchResult` counts exactly the first `k` items —
`success + failed = k` — and the event trace consists of the first `k`
items' work followed by the final flag check: nothing at all (no decode,
render or save) happens for items `k+1..N`. -/
theorem batch_cancellation_spec (b b2 : Bool) (items : List BItem) (hp hv : Bool)
    (k : Nat) (hk : k < items.length)
    (hnr : ∀ it ∈ items.take k, isRaised it.result = false) :
    process_batch b true items hp hv (fun j => decide (k ≤ j))
      = process_batch b2 true items hp hv (fun j => decide (k ≤ j))
  ∧ process_batch b true items hp hv (fun j => decide (k ≤ j))
      = (Except.ok ⟨countSucc (items.take k), countFail (items.take k),
                    skipErrors (items.take k)⟩,
         cleanTrace hp hv items.length (items.take k) 0 ++ [BEvent.checkFlag k])
  ∧ countSucc (items.take k) + countFail (items.take k) = k := by
  have htl : (items.take k).length = k := by
    rw [List.length_take]
    omega
  refine ⟨rfl, ?_, ?_⟩
  · have hf : ∀ j, j < (items.take k).length → (fun j => decide (k ≤ j)) (0 + j) = false := by
      intro j hj
      simp only [Nat.zero_add, decide_eq_false_iff_not]
      omega
    have hstep := runItems_append items.length hp hv (fun j => decide (k ≤ j))
      (items.take k) (items.drop k) 0 ⟨0, 0, []⟩ [] hf hnr
    rw [List.take_append_drop k items] at hstep
    rw [process_batch, if_pos rfl, hstep, htl]
    simp only [Nat.zero_add]
    rw [List.drop_eq_getElem_cons hk, runItems]
    rw [if_pos (show decide (k ≤ k) = true by simp)]
    simp
  · rw [countSucc_add_countFail _ hnr, htl]

/-- Witness for C3's theorem: a three-item batch cancelled after item 2. -/
theorem batch_cancellation_spec_witness :
    (2 < ([⟨("a"), true, PResult.success⟩, ⟨("b"), true, PResult.skipped⟩,
           ⟨("c"), true, PResult.success⟩] : List BItem).length
     ∧ ∀ it ∈ ([⟨("a"), true, PResult.success⟩, ⟨("b"), true, PResult.skipped⟩,
                ⟨("c"), true, PResult.success⟩] : List BItem).take 2,
         isRaised it.result = false)
  ∧ countSucc (([⟨("a"), true, PResult.success⟩, ⟨("b"), true, PResult.skipped⟩,
                 ⟨("c"), true, PResult.success⟩] : List BItem).take 2)
      + countFail (([⟨("a"), true, PResult.success⟩, ⟨("b"), true, PResult.skipped⟩,
                     ⟨("c"), true, PResult.success⟩] : List BItem).take 2) = 2 :=
  ⟨⟨by norm_num, by decide⟩,
   (batch_cancellation_spec false true
     [⟨("a"), true, PResult.success⟩, ⟨("b"), true, PResult.skipped⟩,
      ⟨("c"), true, PResult.success⟩] true true 2 (by norm_num) (by decide)).2.2⟩

/-- Claim C1 counterexample: in a two-item batch whose first item's pipeline
call raises, `process_batch` re-raises — the result is an exception, no
`BatchResult` is returned, and the second item is never processed (its
pipeline event is absent from the trace), refuting "does not stop iteration
over the remaining items" and `success + failed = N`. -/
theorem batch_abort_on_exception_cex :
    process_batch false true
        [⟨("a.jpg"), true, PResult.raised ("boom")⟩, ⟨("b.jpg"), true, PResult.success⟩]
        true true (fun _ => false)
      = (Except.error (raiseErrMsg ("a.jpg") ("boom")),
         [BEvent.checkFlag 0, BEvent.progress 1 2 ("a.jpg"), BEvent.preview ("a.jpg"),
          BEvent.process ("a.jpg")])
  ∧ BEvent.process ("b.jpg") ∉
      [BEvent.checkFlag 0, BEvent.progress 1 2 ("a.jpg"), BEvent.preview ("a.jpg"),
       BEvent.process ("a.jpg")] := by
  constructor
  · rfl
  · decide

/-- Claim C1 (amended): when no item's pipeline call raises, a per-item
failure (a `False` return) increments `failed`, appends one formatted error
message, and does not stop the batch — every item is processed and the
returned `BatchResult` satisfies `success + failed = N` with one error
message per failure; but when an item's pipeline call raises, `process_batch`
re-raises after that item, aborting the batch and discarding the tallies. -/
theorem batch_item_failure_policy (b : Bool) (items : List BItem) (hp hv : Bool) :
    ((∀ it ∈ items, isRaised it.result = false) →
      process_batch b true items hp hv (fun _ => false)
        = (Except.ok ⟨countSucc items, countFail items, skipErrors items⟩,
           cleanTrace hp hv items.length items 0)
      ∧ countSucc items + countFail items = items.length
      ∧ (skipErrors items).length = countFail items
      ∧ ∀ it ∈ items, BEvent.process it.name ∈ cleanTrace hp hv items.length items 0)
  ∧ (∀ pre nm pv m post, items = pre ++ ⟨nm, pv, PResult.raised m⟩ :: post →
      (∀ it ∈ pre, isRaised it.result = false) →
      process_batch b true items hp hv (fun _ => false)
        = (Except.error (raiseErrMsg nm m),
           cleanTrace hp hv items.length pre 0
             ++ itemTrace hp hv items.length pre.length ⟨nm, pv, PResult.raised m⟩)) := by
  constructor
  · intro h
    refine ⟨?_, countSucc_add_countFail items h, skipErrors_length items,
      process_mem_cleanTrace hp hv items.length items 0⟩
    rw [process_batch, if_pos rfl]
    have := runItems_complete items.length hp hv (fun _ => false) items 0 ⟨0, 0, []⟩ []
      (fun _ _ => rfl) h
    simpa using this
  · intro pre nm pv m post heq hpre
    subst heq
    rw [process_batch, if_pos rfl]
    rw [runItems_append (pre ++ ⟨nm, pv, PResult.raised m⟩ :: post).length hp hv
      (fun _ => false) pre (⟨nm, pv, PResult.raised m⟩ :: post) 0 ⟨0, 0, []⟩ []
      (fun _ _ => rfl) hpre]
    rw [runItems]
    simp

/-- Witness for C1's theorem: a two-item batch with one success and one
skip completes with `success + failed = 2` and both items processed. -/
theorem batch_item_failure_policy_witness :
    (∀ it ∈ ([⟨("a.jpg"), true, PResult.success⟩, ⟨("b.jpg"), true, PResult.skipped⟩] :
        List BItem), isRaised it.result = false)
  ∧ process_batch false true
      [⟨("a.jpg"), true, PResult.success⟩, ⟨("b.jpg"), true, PResult.skipped⟩]
      true true (fun _ => false)
      = (Except.ok ⟨countSucc [⟨("a.jpg"), true, PResult.success⟩,
                               ⟨("b.jpg"), true, PResult.skipped⟩],
                    countFail [⟨("a.jpg"), true, PResult.success⟩,
                               ⟨("b.jpg"), true, PResult.skipped⟩],
                    skipErrors [⟨("a.jpg"), true, PResult.success⟩,
                                ⟨("b.jpg"), true, PResult.skipped⟩]⟩,
         cleanTrace true true 2
           [⟨("a.jpg"), true, PResult.success⟩, ⟨("b.jpg"), true, PResult.skipped⟩] 0)
  ∧ countSucc [⟨("a.jpg"), true, PResult.success⟩, ⟨("b.jpg"), true, PResult.skipped⟩]
      + countFail [⟨("a.jpg"), true, PResult.success⟩, ⟨("b.jpg"), true, PResult.skipped⟩]
      = 2 :=
  ⟨by decide,
   ((batch_item_failure_policy false
      [⟨("a.jpg"), true, PResult.success⟩, ⟨("b.jpg"), true, PResult.skipped⟩]
      true true).1 (by decide)).1,
   ((batch_item_failure_policy false
      [⟨("a.jpg"), true, PResult.success⟩, ⟨("b.jpg"), true, PResult.skipped⟩]
      true true).1 (by decide)).2.1⟩

/-- Claim C2 counterexample: a one-item batch whose target already exists
under `overwrite_existing = false` (the pipeline call returns `False`)
records the error text `Processing failed: a.jpg` in `BatchResult.errors` —
the error list is not empty, refuting "no error text for that item is
recorded". -/
theorem batch_skip_records_error_cex :
    process_batch false true [⟨("a.jpg"), true, PResult.skipped⟩] true true (fun _ => false)
      = (Except.ok ⟨0, 1, [("Processing failed&处理失败: a.jpg")]⟩,
         [BEvent.checkFlag 0, BEvent.progress 1 1 ("a.jpg"), BEvent.preview ("a.jpg"),
          BEvent.process ("a.jpg")])
  ∧ ([("Processing failed&处理失败: a.jpg")] : List String) ≠ [] := by
  constructor
  · rfl
  · simp

/-- Claim C2 (amended): when the synthesized target exists and
`overwrite_existing` is false, `ImageProcessor.process` returns `false`
without raising and performs no save (the target's contents are untouched);
but inside a batch such an item increments `failed` and the formatted
message `Processing failed: <name>` *is* appended to `BatchResult.errors`. -/
theorem process_skip_contract (w : IPWorld) (hs : w.styleOk = true)
    (hd : w.decodeOk = true) (ht : w.timeOk = true) (he : w.targetExists = true)
    (ho : w.overwrite = false) :
    IPprocess w = (Except.ok false,
      [IPEvent.loadStyle, IPEvent.decode, IPEvent.extractTime, IPEvent.render, IPEvent.mkdir])
  ∧ IPEvent.save ∉ (IPprocess w).2
  ∧ outcomeOfWorld w = PResult.skipped
  ∧ (∀ (b : Bool) (nm : String) (pv hp hv : Bool),
      process_batch b true [⟨nm, pv, PResult.skipped⟩] hp hv (fun _ => false)
        = (Except.ok ⟨0, 1, [skipErrMsg nm]⟩,
           cleanTrace hp hv 1 [⟨nm, pv, PResult.skipped⟩] 0)
      ∧ skipErrMsg nm ∈ ([skipErrMsg nm] : List String)) := by
  have h1 : IPprocess w = (Except.ok false,
      [IPEvent.loadStyle, IPEvent.decode, IPEvent.extractTime, IPEvent.render,
       IPEvent.mkdir]) := by
    simp [IPprocess, hs, hd, ht, he, ho]
  refine ⟨h1, ?_, ?_, ?_⟩
  · rw [h1]
    decide
  · simp [outcomeOfWorld, h1]
  · intro b nm pv hp hv
    refine ⟨?_, by simp⟩
    rw [process_batch, if_pos rfl, runItems]
    simp [runItems, cleanTrace, itemTrace]

/-- Witness for C2's theorem at a concrete world: all pipeline steps succeed,
the target exists, `overwrite_existing` is false. -/
theorem process_skip_contract_witness :
    ((⟨true, true, true, true, false, true⟩ : IPWorld).styleOk = true
     ∧ (⟨true, true, true, true, false, true⟩ : IPWorld).targetExists = true
     ∧ (⟨true, true, true, true, false, true⟩ : IPWorld).overwrite = false)
  ∧ IPprocess ⟨true, true, true, true, false, true⟩
      = (Except.ok false,
         [IPEvent.loadStyle, IPEvent.decode, IPEvent.extractTime, IPEvent.render,
          IPEvent.mkdir])
  ∧ outcomeOfWorld ⟨true, true, true, true, false, true⟩ = PResult.skipped :=
  ⟨⟨rfl, rfl, rfl⟩,
   (process_skip_contract ⟨true, true, true, true, false, true⟩ rfl rfl rfl rfl rfl).1,
   (process_skip_contract ⟨true, true, true, true, false, true⟩ rfl rfl rfl rfl rfl).2.2.1⟩

/-- Claim C9 counterexample: in a one-item batch the progress callback (with
the item's 1-based index) and the preview callback fire *before* the item's
pipeline call, not after its processing completes — the progress event
precedes the process event in the trace. -/
theorem batch_progress_before_processing_cex :
    process_batch false true [⟨("a.jpg"), true, PResult.success⟩] true true (fun _ => false)
      = (Except.ok ⟨1, 0, []⟩,
         [BEvent.checkFlag 0, BEvent.progress 1 1 ("a.jpg"), BEvent.preview ("a.jpg"),
          BEvent.process ("a.jpg")])
  ∧ List.indexOf (BEvent.progress 1 1 ("a.jpg"))
        [BEvent.checkFlag 0, BEvent.progress 1 1 ("a.jpg"), BEvent.preview ("a.jpg"),
         BEvent.process ("a.jpg")]
      < List.indexOf (BEvent.process ("a.jpg"))
        [BEvent.checkFlag 0, BEvent.progress 1 1 ("a.jpg"), BEvent.preview ("a.jpg"),
         BEvent.process ("a.jpg")] := by
  constructor
  · rfl
  · decide

/-- Claim C9 (amended): for every item of a batch in which no pipeline call
raises and no cancellation occurs, the events for the item at 0-based
position `j` are, in order: the cancellation-flag check, the progress
callback as `(j + 1, total)` with the item's name, the optional preview, and
only then the item's pipeline call — i.e. progress and preview are reported
*before* that item's processing, and the flag is checked before each item
starts. -/
theorem batch_callback_order_spec (b : Bool) (items : List BItem)
    (hnr : ∀ it ∈ items, isRaised it.result = false) :
    process_batch b true items true true (fun _ => false)
      = (Except.ok ⟨countSucc items, countFail items, skipErrors items⟩,
         cleanTrace true true items.length items 0)
  ∧ ∀ j, ∀ hj : j < items.length,
      cleanTrace true true items.length items 0 =
        cleanTrace true true items.length (items.take j) 0
        ++ ([BEvent.checkFlag j,
             BEvent.progress (j + 1) items.length (items.get ⟨j, hj⟩).name]
            ++ (if (items.get ⟨j, hj⟩).previewOk then
                  [BEvent.preview (items.get ⟨j, hj⟩).name] else [])
            ++ [BEvent.process (items.get ⟨j, hj⟩).name])
        ++ cleanTrace true true items.length (items.drop (j + 1)) (j + 1) := by
  constructor
  · rw [process_batch, if_pos rfl]
    have := runItems_complete items.length true true (fun _ => false) items 0 ⟨0, 0, []⟩ []
      (fun _ _ => rfl) hnr
    simpa using this
  · intro j hj
    have htl : (items.take j).length = j := by
      rw [List.length_take]
      omega
    conv_lhs =>
      rw [← List.take_append_drop j items, List.drop_eq_getElem_cons hj]
    rw [cleanTrace_append, htl, cleanTrace]
    simp [itemTrace, List.append_assoc]

/-- Witness for C9's theorem: a one-item batch, with the order instantiated
at position 0. -/
theorem batch_callback_order_spec_witness :
    (∀ it ∈ ([⟨("a.jpg"), true, PResult.success⟩] : List BItem),
      isRaised it.result = false)
  ∧ process_batch false true [⟨("a.jpg"), true, PResult.success⟩] true true (fun _ => false)
      = (Except.ok ⟨countSucc [⟨("a.jpg"), true, PResult.success⟩],
                    countFail [⟨("a.jpg"), true, PResult.success⟩],
                    skipErrors [⟨("a.jpg"), true, PResult.success⟩]⟩,
         cleanTrace true true 1 [⟨("a.jpg"), true, PResult.success⟩] 0)
  ∧ cleanTrace true true 1 [⟨("a.jpg"), true, PResult.success⟩] 0 =
      cleanTrace true true 1 ([] : List BItem) 0
      ++ ([BEvent.checkFlag 0, BEvent.progress 1 1 ("a.jpg")]
          ++ [BEvent.preview ("a.jpg")]
          ++ [BEvent.process ("a.jpg")])
      ++ cleanTrace true true 1 ([] : List BItem) 1 :=
  ⟨by decide,
   (batch_callback_order_spec false [⟨("a.jpg"), true, PResult.success⟩] (by decide)).1,
   (batch_callback_order_spec false [⟨("a.jpg"), true, PResult.success⟩] (by decide)).2
     0 (by norm_num)⟩
